import Mathlib

/-!
Shallow embedding of the is-obsessed backend (TypeScript/Express/Supabase)
calculation engine, validation layer, topic/subtopic tracker,
activity/session tracker, and challenge/countdown tracker.

Conventions:
- JS numbers that carry money, goals or percentages are modelled as ℚ
  (the arithmetic of the claims is exact in both).
- reps counters are ℕ in storage (the schema and the clamping code keep
  them nonnegative integers); deltas arriving from requests are ℤ.
- timestamps are ℤ milliseconds; a Clock carries the current instant,
  the millisecond of local midnight, and today's date key.
- each Express handler / service method becomes a pure function on an
  explicit store; DB errors other than "row not found" are out of scope.
-/

namespace IsObsessed

/-- A subtopic row (table `subtopics`). -/
structure Subtopic where
  id : Nat
  topic_id : Nat
  title : String
  notes : String
  urls : List String
  reps_completed : Nat
  reps_goal : Nat
  goal_amount : ℚ
deriving Repr, DecidableEq

/-- A topic row (table `topics`). `earnings` and `completion_percentage`
are the derived columns the calculation engine recomputes. -/
structure Topic where
  id : Nat
  title : String
  category : String
  notes : String
  urls : List String
  money_per_5_reps : ℚ
  is_money_per_5_reps_locked : Bool
  earnings : ℚ
  completion_percentage : ℚ
deriving Repr, DecidableEq

/-- `calculateTopicEarnings` from `src/utils/calculations.ts`:
`Math.floor(totalReps / 5) * moneyPer5Reps`, where `totalReps` is the
`reduce` of `reps_completed` over the subtopics. On natural numbers
`Math.floor` of the quotient is `Nat` division. -/
def calculateTopicEarnings (subtopics : List Subtopic) (moneyPer5Reps : ℚ) : ℚ :=
  let totalReps : Nat := subtopics.foldl (fun sum s => sum + s.reps_completed) 0
  ((totalReps / 5 : Nat) : ℚ) * moneyPer5Reps

/-- `calculateTopicCompletionPercentage` from `src/utils/calculations.ts`. -/
def calculateTopicCompletionPercentage (subtopics : List Subtopic) : ℚ :=
  if subtopics.length = 0 then 0
  else
    let totalCompleted : Nat := subtopics.foldl (fun sum s => sum + s.reps_completed) 0
    let totalGoal : Nat := subtopics.foldl (fun sum s => sum + s.reps_goal) 0
    if totalGoal = 0 then 0
    else ((totalCompleted : ℚ) / (totalGoal : ℚ)) * 100

/-- `calculateDashboardProgress` from `src/utils/calculations.ts`. -/
def calculateDashboardProgress (currentEarnings globalGoal : ℚ) : ℚ :=
  if globalGoal ≤ 0 then 0 else (currentEarnings / globalGoal) * 100

/-- `updateTopicCalculations` from `src/utils/calculations.ts`: refresh the
derived columns of a topic from its current subtopic set. -/
def updateTopicCalculations (topic : Topic) (subtopics : List Subtopic) : Topic :=
  { topic with
    earnings := calculateTopicEarnings subtopics topic.money_per_5_reps
    completion_percentage := calculateTopicCompletionPercentage subtopics }

/-- Total reps completed over a subtopic list, as the spec phrases it
(a plain sum rather than the code's `reduce`). -/
def totalRepsCompleted (subtopics : List Subtopic) : Nat :=
  (subtopics.map (·.reps_completed)).sum

/-- Total reps goal over a subtopic list. -/
def totalRepsGoal (subtopics : List Subtopic) : Nat :=
  (subtopics.map (·.reps_goal)).sum

lemma foldl_reps_eq_sum (subtopics : List Subtopic) :
    subtopics.foldl (fun sum s => sum + s.reps_completed) 0 = totalRepsCompleted subtopics := by
  have h : ∀ (l : List Subtopic) (a : Nat),
      l.foldl (fun sum s => sum + s.reps_completed) a = a + totalRepsCompleted l := by
    intro l
    induction l with
    | nil => intro a; simp [totalRepsCompleted]
    | cons x xs ih =>
        intro a
        simp only [List.foldl_cons, ih, totalRepsCompleted, List.map_cons, List.sum_cons]
        ring
  simpa using h subtopics 0

lemma foldl_goal_eq_sum (subtopics : List Subtopic) :
    subtopics.foldl (fun sum s => sum + s.reps_goal) 0 = totalRepsGoal subtopics := by
  have h : ∀ (l : List Subtopic) (a : Nat),
      l.foldl (fun sum s => sum + s.reps_goal) a = a + totalRepsGoal l := by
    intro l
    induction l with
    | nil => intro a; simp [totalRepsGoal]
    | cons x xs ih =>
        intro a
        simp only [List.foldl_cons, ih, totalRepsGoal, List.map_cons, List.sum_cons]
        ring
  simpa using h subtopics 0

/-- The topic/subtopic portion of the datastore (tables `topics` and
`subtopics` accessed through `DatabaseService`). -/
structure TopicStore where
  topics : List Topic
  subtopics : List Subtopic
deriving Repr, DecidableEq

/-- `db.getTopicById`. -/
def getTopicById (st : TopicStore) (id : Nat) : Option Topic :=
  st.topics.find? (fun t => t.id == id)

/-- `db.getSubtopicById`. -/
def getSubtopicById (st : TopicStore) (id : Nat) : Option Subtopic :=
  st.subtopics.find? (fun s => s.id == id)

/-- `db.getSubtopicsByTopicId`. -/
def getSubtopicsByTopicId (st : TopicStore) (topicId : Nat) : List Subtopic :=
  st.subtopics.filter (fun s => s.topic_id == topicId)

/-- `db.updateSubtopic` restricted to the `reps_completed` column. -/
def storeSetSubtopicReps (st : TopicStore) (id : Nat) (reps : Nat) : TopicStore :=
  { st with subtopics :=
      st.subtopics.map (fun s => if s.id == id then { s with reps_completed := reps } else s) }

/-- `db.updateTopic` restricted to the derived columns. -/
def storeSetTopicCalculations (st : TopicStore) (id : Nat) (earnings completion : ℚ) :
    TopicStore :=
  { st with topics :=
      st.topics.map (fun t =>
        if t.id == id then { t with earnings := earnings, completion_percentage := completion }
        else t) }

/-- `POST /api/sub-topics/:subtopicId/reps` from `src/routes/subtopics.ts`:
look up the subtopic (404 if absent), clamp the new count at zero, persist
it, then recompute the parent topic's derived columns from all of its
subtopics and persist those, returning both updated entities. -/
def addRepsHandler (st : TopicStore) (subtopicId : Nat) (reps : ℤ) :
    Except String (TopicStore × Subtopic × Topic) :=
  match getSubtopicById st subtopicId with
  | none => .error "Subtopic not found"
  | some existingSubtopic =>
    let newRepsCompleted : Nat := (max 0 ((existingSubtopic.reps_completed : ℤ) + reps)).toNat
    let st1 := storeSetSubtopicReps st subtopicId newRepsCompleted
    let updatedSubtopic := { existingSubtopic with reps_completed := newRepsCompleted }
    match getTopicById st1 existingSubtopic.topic_id with
    | none => .error "Parent topic not found"
    | some topic =>
      let allSubtopics := getSubtopicsByTopicId st1 existingSubtopic.topic_id
      let updatedTopic := updateTopicCalculations topic allSubtopics
      let st2 := storeSetTopicCalculations st1 existingSubtopic.topic_id
        updatedTopic.earnings updatedTopic.completion_percentage
      .ok (st2, updatedSubtopic, updatedTopic)

/-- Session type column (`manual` is the default applied on insert). -/
inductive SessionType
  | manual
  | timer
deriving Repr, DecidableEq

/-- An `activity_sessions` row. -/
structure ActivitySession where
  id : Nat
  activity_id : Nat
  start_time : ℤ
  end_time : Option ℤ
  duration_minutes : ℤ
  is_active : Bool
  session_type : SessionType
deriving Repr, DecidableEq

/-- An `activities` row (goals are numeric period targets). -/
structure Activity where
  id : Nat
  name : String
  reps : Nat
  goal_daily : ℚ
  goal_weekly : ℚ
  goal_monthly : ℚ
  goal_yearly : ℚ
deriving Repr, DecidableEq

/-- A `motivational_challenges` row. Dates are ℤ milliseconds. -/
structure Challenge where
  id : Nat
  start_date : ℤ
  end_date : ℤ
  ultimate_focus_goal_hours : ℚ
  is_active : Bool
deriving Repr, DecidableEq

/-- A `challenge_progress` row; `progress_date` is an abstract day key
(the code uses the `YYYY-MM-DD` prefix of the ISO timestamp). -/
structure ChallengeProgress where
  challenge_id : Nat
  progress_date : ℤ
  daily_focus_minutes : ℤ
  countdown_seconds_remaining : ℤ
  is_active_period : Option Bool
  last_countdown_update : Option ℤ
deriving Repr, DecidableEq

/-- The activity/challenge portion of the datastore. -/
structure AppState where
  activities : List Activity
  sessions : List ActivitySession
  challenges : List Challenge
  progress : List ChallengeProgress
deriving Repr, DecidableEq

/-- The current instant: absolute milliseconds `t`, the millisecond of
local midnight `dayStart` (so `t - dayStart` is the time of day), and the
day key `today` the code derives from the date string. -/
structure Clock where
  t : ℤ
  dayStart : ℤ
  today : ℤ
deriving Repr, DecidableEq

/-- A well-formed clock: the instant lies inside its own day. -/
def Clock.wf (c : Clock) : Prop :=
  c.dayStart ≤ c.t ∧ c.t < c.dayStart + 86400000

instance (c : Clock) : Decidable (Clock.wf c) := by
  unfold Clock.wf; infer_instance

/-- `now.getHours()`: the local hour of day. -/
def Clock.hour (c : Clock) : ℤ :=
  (c.t - c.dayStart).fdiv 3600000

/-- `Math.ceil(a / b)` for integer `a` and positive integer `b`. -/
def intCeilDiv (a b : ℤ) : ℤ :=
  -((-a).fdiv b)

/-- `ActivityService.startSession`: reject when the activity already has an
active session, otherwise insert a row that starts now, is active, and
carries the requested (or default `manual`) session type. The state is
returned unchanged on the conflict path (the code errors before any
insert). -/
def startSession (st : AppState) (activityId : Nat) (sessionType : Option SessionType)
    (now : ℤ) (newId : Nat) : AppState × Except String ActivitySession :=
  match st.sessions.find? (fun s => s.activity_id == activityId && s.is_active) with
  | some _ => (st, .error "Activity already has an active session")
  | none =>
    let newSession : ActivitySession :=
      { id := newId, activity_id := activityId, start_time := now, end_time := none,
        duration_minutes := 0, is_active := true,
        session_type := sessionType.getD .manual }
    ({ st with sessions := st.sessions ++ [newSession] }, .ok newSession)

/-- `ActivityService.incrementReps` (manual fallback path): clamp the new
count at zero. The state is unchanged when the activity does not exist
(that lookup failure is the error the caller catches). -/
def incrementRepsOn (st : AppState) (activityId : Nat) (amount : ℤ) : AppState :=
  { st with activities :=
      st.activities.map (fun a =>
        if a.id == activityId then { a with reps := (max 0 ((a.reps : ℤ) + amount)).toNat }
        else a) }

/-- `ChallengeService.calculateRemainingSeconds`: 0 once the end date has
passed, otherwise ceil-days remaining × 16 h × 3600 s, clamped at 0. -/
def calculateRemainingSeconds (challenge : Challenge) (c : Clock) : ℤ :=
  if challenge.end_date ≤ c.t then 0
  else max 0 (intCeilDiv (challenge.end_date - c.t) 86400000 * 16 * 3600)

/-- `ChallengeService.updateDailyFocusHours`: add the session duration to
today's progress row of the active challenge, creating the row (with a
fresh countdown baseline) when absent; a no-op when no challenge is
active. All failures are swallowed inside this method. -/
def updateDailyFocusHours (st : AppState) (durationMinutes : ℤ) (c : Clock) : AppState :=
  match st.challenges.find? (fun ch => ch.is_active) with
  | none => st
  | some challenge =>
    match st.progress.find?
        (fun p => p.challenge_id == challenge.id && p.progress_date == c.today) with
    | some existingProgress =>
      { st with progress :=
          st.progress.map (fun p =>
            if p.challenge_id == challenge.id && p.progress_date == c.today then
              { p with daily_focus_minutes :=
                  existingProgress.daily_focus_minutes + durationMinutes }
            else p) }
    | none =>
      { st with progress :=
          st.progress ++ [{ challenge_id := challenge.id, progress_date := c.today,
                            daily_focus_minutes := durationMinutes,
                            countdown_seconds_remaining := calculateRemainingSeconds challenge c,
                            is_active_period := none, last_countdown_update := none }] }

/-- `ActivityService.endSession`: find the active session by id (error when
absent), stamp end time, floored clamped duration and `is_active := false`;
then, when the owning activity is named "Focus Hour" or "FOCUSSED TIME"
and the duration is positive, increment that activity's reps by the
duration and feed it to the challenge tracker — failures of that side
effect are swallowed. -/
def endSession (st : AppState) (sessionId : Nat) (c : Clock) :
    AppState × Except String ActivitySession :=
  match st.sessions.find? (fun s => s.id == sessionId && s.is_active) with
  | none => (st, .error "Failed to fetch active session")
  | some sessionData =>
    let durationMinutes : ℤ := max 0 ((c.t - sessionData.start_time).fdiv 60000)
    let updated : ActivitySession :=
      { sessionData with
        end_time := some c.t
        duration_minutes := durationMinutes
        is_active := false }
    let st1 : AppState :=
      { st with sessions :=
          st.sessions.map (fun s =>
            if s.id == sessionId then
              { s with
                end_time := some c.t
                duration_minutes := durationMinutes
                is_active := false }
            else s) }
    let st2 : AppState :=
      if 0 < durationMinutes then
        match st1.activities.find? (fun a => a.id == sessionData.activity_id) with
        | some activity =>
          if activity.name == "Focus Hour" || activity.name == "FOCUSSED TIME" then
            updateDailyFocusHours
              (incrementRepsOn st1 sessionData.activity_id durationMinutes)
              durationMinutes c
          else st1
        | none => st1
      else st1
    (st2, .ok updated)

/-- `POST /api/challenge` from `src/routes/challenge.ts`: reject a
non-positive goal, deactivate every active challenge, insert a new active
challenge spanning 64 days from now, and seed today's progress row with a
countdown of 64 × 16 × 3600 seconds. -/
def createChallenge (st : AppState) (goalHours : ℚ) (c : Clock) (newId : Nat) :
    AppState × Except String Challenge :=
  if goalHours ≤ 0 then
    (st, .error "Ultimate focus goal hours must be a positive number")
  else
    let deactivated := st.challenges.map (fun ch =>
      if ch.is_active then { ch with is_active := false } else ch)
    let challenge : Challenge :=
      { id := newId, start_date := c.t, end_date := c.t + 64 * 86400000,
        ultimate_focus_goal_hours := goalHours, is_active := true }
    let totalSeconds : ℤ := 64 * 16 * 3600
    ({ st with
       challenges := deactivated ++ [challenge]
       progress := st.progress ++
         [{ challenge_id := newId, progress_date := c.today, daily_focus_minutes := 0,
            countdown_seconds_remaining := totalSeconds, is_active_period := none,
            last_countdown_update := none }] },
     .ok challenge)

/-- The JSON body of `POST /api/challenge/countdown/sync`. -/
structure CountdownSyncResponse where
  server_time : ℤ
  daily_seconds_remaining : ℤ
  total_seconds_remaining : ℤ
  is_active_hours : Bool
  current_hour : ℤ
  days_remaining : ℤ
deriving Repr, DecidableEq

/-- `POST /api/challenge/countdown/sync`: compute the daily countdown
(seconds to 21:00 during 07:00–21:00, the full 16 h budget before 07:00,
0 after), the total = (ceil-days-remaining − 1) × 16 h + daily (clamped at
0), and upsert today's progress row with the total and the active flag. -/
def syncCountdown (st : AppState) (c : Clock) :
    AppState × Except String CountdownSyncResponse :=
  match st.challenges.find? (fun ch => ch.is_active) with
  | none => (st, .error "No active challenge found")
  | some challenge =>
    let currentHour := c.hour
    let pair : ℤ × Bool :=
      if 7 ≤ currentHour ∧ currentHour < 21 then
        ((c.dayStart + 21 * 3600000 - c.t).fdiv 1000, true)
      else if currentHour < 7 then (16 * 3600, false)
      else (0, false)
    let dailySecondsRemaining := pair.1
    let isActiveHours := pair.2
    let daysRemaining := max 0 (intCeilDiv (challenge.end_date - c.t) 86400000)
    let totalSecondsRemaining := max 0 ((daysRemaining - 1) * 16 * 3600 + dailySecondsRemaining)
    let st2 : AppState :=
      match st.progress.find?
          (fun p => p.challenge_id == challenge.id && p.progress_date == c.today) with
      | some _ =>
        { st with progress :=
            st.progress.map (fun p =>
              if p.challenge_id == challenge.id && p.progress_date == c.today then
                { p with
                  countdown_seconds_remaining := totalSecondsRemaining
                  last_countdown_update := some c.t
                  is_active_period := some isActiveHours }
              else p) }
      | none =>
        { st with progress :=
            st.progress ++
              [{ challenge_id := challenge.id, progress_date := c.today,
                 daily_focus_minutes := 0,
                 countdown_seconds_remaining := totalSecondsRemaining,
                 is_active_period := some isActiveHours,
                 last_countdown_update := some c.t }] }
    (st2, .ok { server_time := c.t, daily_seconds_remaining := dailySecondsRemaining,
                total_seconds_remaining := totalSecondsRemaining,
                is_active_hours := isActiveHours, current_hour := currentHour,
                days_remaining := daysRemaining })

/-- A `global_settings` row. -/
structure GlobalSetting where
  key : String
  value : ℚ
deriving Repr, DecidableEq

/-- One topic summary in the dashboard response. -/
structure DashboardTopicSummary where
  id : Nat
  title : String
  category : String
  earnings : ℚ
  completionPercentage : ℚ
deriving Repr, DecidableEq

/-- The body of `GET /api/dashboard`. -/
structure DashboardData where
  globalGoal : ℚ
  currentEarnings : ℚ
  progress : ℚ
  topics : List DashboardTopicSummary
deriving Repr, DecidableEq

/-- `GET /api/dashboard` from `src/routes/dashboard.ts`. The global goal
is `globalGoalSetting?.value || 5000`: JavaScript `||` takes the default
on every falsy value, so a stored numeric 0 also falls back to 5000. Each
topic's derived columns are recomputed and persisted, then summed into
the overall progress. -/
def dashboardHandler (st : TopicStore) (globalGoalSetting : Option GlobalSetting) :
    TopicStore × DashboardData :=
  let globalGoal : ℚ :=
    match globalGoalSetting with
    | none => 5000
    | some s => if s.value = 0 then 5000 else s.value
  let summaries : List DashboardTopicSummary :=
    st.topics.map (fun topic =>
      let subtopics := getSubtopicsByTopicId st topic.id
      { id := topic.id, title := topic.title, category := topic.category,
        earnings := calculateTopicEarnings subtopics topic.money_per_5_reps,
        completionPercentage := calculateTopicCompletionPercentage subtopics })
  let st2 : TopicStore :=
    { st with topics :=
        st.topics.map (fun topic =>
          let subtopics := getSubtopicsByTopicId st topic.id
          { topic with
            earnings := calculateTopicEarnings subtopics topic.money_per_5_reps
            completion_percentage := calculateTopicCompletionPercentage subtopics }) }
  let currentEarnings := summaries.foldl (fun sum x => sum + x.earnings) 0
  (st2, { globalGoal := globalGoal, currentEarnings := currentEarnings,
          progress := calculateDashboardProgress currentEarnings globalGoal,
          topics := summaries })

/-- A JavaScript value as the validation layer distinguishes them. -/
inductive JsVal
  | undef
  | null
  | bool (b : Bool)
  | num (q : ℚ)
  | str (s : String)
  | arr (elems : List String)
deriving Repr, DecidableEq

/-- JavaScript truthiness on the modelled values. -/
def JsVal.truthy : JsVal → Bool
  | .undef => false
  | .null => false
  | .bool b => b
  | .num q => decide (q ≠ 0)
  | .str s => decide (s.length ≠ 0)
  | .arr _ => true

/-- JavaScript `String.prototype.trim`, modelled structurally over the
character list (whitespace stripped from both ends). -/
def jsTrim (s : String) : String :=
  ⟨((s.data.dropWhile Char.isWhitespace).reverse.dropWhile Char.isWhitespace).reverse⟩

/-- JavaScript `a % b` on numbers: `a - b * trunc(a / b)`, assembled from
integer arithmetic on the canonical fractions. -/
def jsRem (a b : ℚ) : ℚ :=
  let t : ℤ := (a.num * (b.den : ℤ)).tdiv ((a.den : ℤ) * b.num)
  mkRat (a.num * (b.den : ℤ) - b.num * t * (a.den : ℤ)) (a.den * b.den)

/-- The request body the subtopic validators inspect. -/
structure SubtopicPayload where
  title : JsVal
  notes : JsVal
  urls : JsVal
  goalAmount : JsVal
deriving Repr, DecidableEq

/-- The command object `validateCreateSubtopic` produces. -/
structure CreateSubtopicRequest where
  title : String
  goalAmount : ℚ
  notes : JsVal
  urls : List String
deriving Repr, DecidableEq

/-- The partial-update command `validateUpdateSubtopic` produces. -/
structure UpdateSubtopicRequest where
  title : Option String
  notes : Option JsVal
  urls : Option (List String)
  goalAmount : Option ℚ
deriving Repr, DecidableEq

/-- `validateCreateSubtopic` from `src/utils/validation.ts`. -/
def validateCreateSubtopic (data : SubtopicPayload) :
    Except String CreateSubtopicRequest :=
  match data.title with
  | .str title =>
    if (jsTrim title).length = 0 then
      .error "Title is required and must be a non-empty string"
    else
      match data.goalAmount with
      | .num g =>
        if g ≤ 0 then .error "goalAmount must be a positive number"
        else if jsRem g 1000 ≠ 0 then .error "goalAmount must be a multiple of 1000"
        else
          .ok { title := jsTrim title, goalAmount := g,
                notes := if data.notes.truthy then data.notes else .str "",
                urls := match data.urls with | .arr l => l | _ => [] }
      | _ => .error "goalAmount must be a positive number"
  | _ => .error "Title is required and must be a non-empty string"

/-- The `notes` field of a partial update: absent stays absent, otherwise
falsy values collapse to the empty string (`data.notes || ''`). -/
def updateNotesField (v : JsVal) : Option JsVal :=
  match v with
  | .undef => none
  | v => some (if v.truthy then v else .str "")

/-- The `urls` field of a partial update: absent stays absent, a non-array
silently becomes the empty list. -/
def updateUrlsField (v : JsVal) : Option (List String) :=
  match v with
  | .undef => none
  | .arr l => some l
  | _ => some []

/-- The goal-amount tail of `validateUpdateSubtopic`, once the title check
has passed with outcome `title?`. -/
def updateSubtopicTail (data : SubtopicPayload) (title? : Option String) :
    Except String UpdateSubtopicRequest :=
  match data.goalAmount with
  | .undef =>
    .ok { title := title?, notes := updateNotesField data.notes,
          urls := updateUrlsField data.urls, goalAmount := none }
  | .num g =>
    if g ≤ 0 then .error "goalAmount must be a positive number"
    else if jsRem g 1000 ≠ 0 then .error "goalAmount must be a multiple of 1000"
    else
      .ok { title := title?, notes := updateNotesField data.notes,
            urls := updateUrlsField data.urls, goalAmount := some g }
  | _ => .error "goalAmount must be a positive number"

/-- `validateUpdateSubtopic` from `src/utils/validation.ts`: fields absent
from the payload stay absent from the update object; the title check runs
first, then the goal-amount checks. -/
def validateUpdateSubtopic (data : SubtopicPayload) :
    Except String UpdateSubtopicRequest :=
  match data.title with
  | .undef => updateSubtopicTail data none
  | .str t =>
    if (jsTrim t).length = 0 then .error "Title must be a non-empty string"
    else updateSubtopicTail data (some (jsTrim t))
  | _ => .error "Title must be a non-empty string"

/-- A goal amount passing both subtopic checks: a positive number that is
an exact multiple of 1000 under the JS remainder. -/
def goalAmountOk (v : JsVal) : Bool :=
  match v with
  | .num g => decide (0 < g) && decide (jsRem g 1000 = 0)
  | _ => false

lemma find?_map_update {α : Type _} (l : List α) (p : α → Bool) (f : α → α) (x : α)
    (hfind : l.find? p = some x) (hpres : ∀ y, p (f y) = p y) :
    (l.map f).find? p = some (f x) := by
  rw [List.find?_map]
  have hc : (p ∘ f) = p := funext hpres
  rw [hc, hfind, Option.map_some']

lemma find?_append_none {α : Type _} (l : List α) (p : α → Bool) (x : α)
    (h : l.find? p = none) (hx : p x = true) : (l ++ [x]).find? p = some x := by
  induction l with
  | nil => simp [List.find?, hx]
  | cons a as ih =>
    rw [List.cons_append]
    cases hpa : p a with
    | true =>
      rw [List.find?_cons_of_pos _ hpa] at h
      exact absurd h (by simp)
    | false =>
      have hpa' : ¬p a = true := by simp [hpa]
      rw [List.find?_cons_of_neg _ hpa'] at h
      rw [List.find?_cons_of_neg _ hpa']
      exact ih h

lemma updateDailyFocusHours_sessions (st : AppState) (d : ℤ) (c : Clock) :
    (updateDailyFocusHours st d c).sessions = st.sessions := by
  unfold updateDailyFocusHours
  split
  · rfl
  · split <;> rfl

lemma updateDailyFocusHours_activities (st : AppState) (d : ℤ) (c : Clock) :
    (updateDailyFocusHours st d c).activities = st.activities := by
  unfold updateDailyFocusHours
  split
  · rfl
  · split <;> rfl

lemma updateDailyFocusHours_challenges (st : AppState) (d : ℤ) (c : Clock) :
    (updateDailyFocusHours st d c).challenges = st.challenges := by
  unfold updateDailyFocusHours
  split
  · rfl
  · split <;> rfl

end IsObsessed

namespace IsObsessed

/-- C1: for every subtopic list `S` with total reps-completed `R` and every
rate `M`, `calculateTopicEarnings S M = (R / 5) * M` with integer-floor
division, and in particular the earnings are `0` whenever `R < 5`,
regardless of `M`. -/
theorem topicEarnings_floor_formula (S : List Subtopic) (M : ℚ) :
    calculateTopicEarnings S M = ((totalRepsCompleted S / 5 : Nat) : ℚ) * M ∧
    (totalRepsCompleted S < 5 → calculateTopicEarnings S M = 0) := by
  constructor
  · simp [calculateTopicEarnings, foldl_reps_eq_sum]
  · intro hR
    simp [calculateTopicEarnings, foldl_reps_eq_sum, Nat.div_eq_of_lt hR]

/-- Witness for C1 at a concrete input: two subtopics totalling 4 reps
earn nothing at rate 7. -/
theorem topicEarnings_floor_formula_witness :
    calculateTopicEarnings
      [{ id := 1, topic_id := 1, title := "a", notes := "", urls := [],
         reps_completed := 3, reps_goal := 18, goal_amount := 1000 },
       { id := 2, topic_id := 1, title := "b", notes := "", urls := [],
         reps_completed := 1, reps_goal := 18, goal_amount := 1000 }] 7 = 0 := by
  exact (topicEarnings_floor_formula
      [{ id := 1, topic_id := 1, title := "a", notes := "", urls := [],
         reps_completed := 3, reps_goal := 18, goal_amount := 1000 },
       { id := 2, topic_id := 1, title := "b", notes := "", urls := [],
         reps_completed := 1, reps_goal := 18, goal_amount := 1000 }] 7).2 (by decide)

/-- C7: `calculateTopicCompletionPercentage` returns 0 on an empty list or
when the total goal is 0; otherwise it is (completed / goal) × 100, and it
exceeds 100 whenever total completed exceeds the total goal (no clamp). -/
theorem topicCompletion_formula (S : List Subtopic) :
    (S = [] → calculateTopicCompletionPercentage S = 0) ∧
    (totalRepsGoal S = 0 → calculateTopicCompletionPercentage S = 0) ∧
    (totalRepsGoal S ≠ 0 →
      calculateTopicCompletionPercentage S =
        ((totalRepsCompleted S : ℚ) / (totalRepsGoal S : ℚ)) * 100) ∧
    (totalRepsGoal S ≠ 0 → totalRepsGoal S < totalRepsCompleted S →
      100 < calculateTopicCompletionPercentage S) := by
  refine ⟨?_, ?_, ?_, ?_⟩
  · intro h; subst h; simp [calculateTopicCompletionPercentage]
  · intro h
    simp [calculateTopicCompletionPercentage, foldl_goal_eq_sum, h]
  · intro h
    have hne : S ≠ [] := by
      intro hS; subst hS; exact h rfl
    have hlen : S.length ≠ 0 := by
      simpa [List.length_eq_zero] using hne
    simp [calculateTopicCompletionPercentage, foldl_goal_eq_sum, foldl_reps_eq_sum, h, hlen]
  · intro h hlt
    have hne : S ≠ [] := by
      intro hS; subst hS; exact h rfl
    have hlen : S.length ≠ 0 := by
      simpa [List.length_eq_zero] using hne
    have hgoal : (0 : ℚ) < (totalRepsGoal S : ℚ) := by
      exact_mod_cast Nat.pos_of_ne_zero h
    have hrat : (1 : ℚ) < (totalRepsCompleted S : ℚ) / (totalRepsGoal S : ℚ) := by
      rw [lt_div_iff₀ hgoal, one_mul]
      exact_mod_cast hlt
    have : (100 : ℚ) < ((totalRepsCompleted S : ℚ) / (totalRepsGoal S : ℚ)) * 100 := by
      nlinarith
    simpa [calculateTopicCompletionPercentage, foldl_goal_eq_sum, foldl_reps_eq_sum, h, hlen]
      using this

/-- C2: adjusting an existing subtopic's reps by a signed delta clamps the
new count at zero, persists it, recomputes and persists the parent topic's
earnings and completion percentage from all of that topic's subtopics, and
returns both updated entities. -/
theorem addReps_spec (st : TopicStore) (i : Nat) (d : ℤ) (sub : Subtopic) (topic : Topic)
    (hsub : getSubtopicById st i = some sub)
    (htopic : getTopicById st sub.topic_id = some topic) :
    ∃ st2 : TopicStore,
      addRepsHandler st i d =
        .ok (st2, { sub with reps_completed := (max 0 ((sub.reps_completed : ℤ) + d)).toNat },
             updateTopicCalculations topic (getSubtopicsByTopicId st2 sub.topic_id)) ∧
      getSubtopicById st2 i =
        some { sub with reps_completed := (max 0 ((sub.reps_completed : ℤ) + d)).toNat } ∧
      getTopicById st2 sub.topic_id =
        some { topic with
               earnings :=
                 calculateTopicEarnings (getSubtopicsByTopicId st2 sub.topic_id)
                   topic.money_per_5_reps,
               completion_percentage :=
                 calculateTopicCompletionPercentage (getSubtopicsByTopicId st2 sub.topic_id) } := by
  have hsub' : st.subtopics.find? (fun s => s.id == i) = some sub := hsub
  have htopic' : st.topics.find? (fun t => t.id == sub.topic_id) = some topic := htopic
  have hid : sub.id = i := by simpa using List.find?_some hsub'
  have hidT : topic.id = sub.topic_id := by simpa using List.find?_some htopic'
  have h1 : getTopicById
      (storeSetSubtopicReps st i ((max 0 ((sub.reps_completed : ℤ) + d)).toNat))
      sub.topic_id = some topic := htopic
  refine ⟨storeSetTopicCalculations
      (storeSetSubtopicReps st i ((max 0 ((sub.reps_completed : ℤ) + d)).toNat))
      sub.topic_id
      (updateTopicCalculations topic
        (getSubtopicsByTopicId
          (storeSetSubtopicReps st i ((max 0 ((sub.reps_completed : ℤ) + d)).toNat))
          sub.topic_id)).earnings
      (updateTopicCalculations topic
        (getSubtopicsByTopicId
          (storeSetSubtopicReps st i ((max 0 ((sub.reps_completed : ℤ) + d)).toNat))
          sub.topic_id)).completion_percentage, ?_, ?_, ?_⟩
  · simp only [addRepsHandler, hsub, h1]
    rfl
  · have hcomp :
        ((fun s : Subtopic => s.id == i) ∘
          (fun s : Subtopic => if s.id == i then
            { s with reps_completed := (max 0 ((sub.reps_completed : ℤ) + d)).toNat }
          else s)) =
        (fun s : Subtopic => s.id == i) := by
      funext s
      by_cases h : s.id = i <;> simp [h]
    show (st.subtopics.map
        (fun s => if s.id == i then
          { s with reps_completed := (max 0 ((sub.reps_completed : ℤ) + d)).toNat }
        else s)).find?
        (fun s => s.id == i) =
      some { sub with reps_completed := (max 0 ((sub.reps_completed : ℤ) + d)).toNat }
    rw [List.find?_map, hcomp, hsub']
    simp [hid]
  · have hcompT :
        ((fun t : Topic => t.id == sub.topic_id) ∘
          (fun t : Topic => if t.id == sub.topic_id then
            { t with
              earnings :=
                (updateTopicCalculations topic
                  (getSubtopicsByTopicId
                    (storeSetSubtopicReps st i
                      ((max 0 ((sub.reps_completed : ℤ) + d)).toNat))
                    sub.topic_id)).earnings
              completion_percentage :=
                (updateTopicCalculations topic
                  (getSubtopicsByTopicId
                    (storeSetSubtopicReps st i
                      ((max 0 ((sub.reps_completed : ℤ) + d)).toNat))
                    sub.topic_id)).completion_percentage }
          else t)) =
        (fun t : Topic => t.id == sub.topic_id) := by
      funext t
      by_cases h : t.id = sub.topic_id <;> simp [h]
    show (st.topics.map
        (fun t => if t.id == sub.topic_id then
          { t with
            earnings :=
              (updateTopicCalculations topic
                (getSubtopicsByTopicId
                  (storeSetSubtopicReps st i
                    ((max 0 ((sub.reps_completed : ℤ) + d)).toNat))
                  sub.topic_id)).earnings
            completion_percentage :=
              (updateTopicCalculations topic
                (getSubtopicsByTopicId
                  (storeSetSubtopicReps st i
                    ((max 0 ((sub.reps_completed : ℤ) + d)).toNat))
                  sub.topic_id)).completion_percentage }
        else t)).find? (fun t => t.id == sub.topic_id) = _
    rw [List.find?_map, hcompT, htopic']
    rw [Option.map_some']
    rw [if_pos (by simp [hidT])]
    rfl

/-- Witness for C2: a store with one topic and one subtopic (5 reps done),
adjusted by −7, clamps at 0. -/
theorem addReps_spec_witness :
    ∃ st2 : TopicStore,
      addRepsHandler
        { topics := [{ id := 1, title := "t", category := "c", notes := "", urls := [],
                       money_per_5_reps := 10, is_money_per_5_reps_locked := false,
                       earnings := 10, completion_percentage := 0 }],
          subtopics := [{ id := 1, topic_id := 1, title := "s", notes := "", urls := [],
                          reps_completed := 5, reps_goal := 18, goal_amount := 1000 }] } 1 (-7) =
        .ok (st2,
          { id := 1, topic_id := 1, title := "s", notes := "", urls := [],
            reps_completed := (max 0 ((5 : ℤ) + (-7))).toNat, reps_goal := 18,
            goal_amount := 1000 },
          updateTopicCalculations
            { id := 1, title := "t", category := "c", notes := "", urls := [],
              money_per_5_reps := 10, is_money_per_5_reps_locked := false,
              earnings := 10, completion_percentage := 0 }
            (getSubtopicsByTopicId st2 1)) ∧
      getSubtopicById st2 1 =
        some { id := 1, topic_id := 1, title := "s", notes := "", urls := [],
               reps_completed := (max 0 ((5 : ℤ) + (-7))).toNat, reps_goal := 18,
               goal_amount := 1000 } ∧
      getTopicById st2 1 =
        some { id := 1, title := "t", category := "c", notes := "", urls := [],
               money_per_5_reps := 10, is_money_per_5_reps_locked := false,
               earnings := calculateTopicEarnings (getSubtopicsByTopicId st2 1) 10,
               completion_percentage :=
                 calculateTopicCompletionPercentage (getSubtopicsByTopicId st2 1) } :=
  addReps_spec
    { topics := [{ id := 1, title := "t", category := "c", notes := "", urls := [],
                   money_per_5_reps := 10, is_money_per_5_reps_locked := false,
                   earnings := 10, completion_percentage := 0 }],
      subtopics := [{ id := 1, topic_id := 1, title := "s", notes := "", urls := [],
                      reps_completed := 5, reps_goal := 18, goal_amount := 1000 }] }
    1 (-7)
    { id := 1, topic_id := 1, title := "s", notes := "", urls := [],
      reps_completed := 5, reps_goal := 18, goal_amount := 1000 }
    { id := 1, title := "t", category := "c", notes := "", urls := [],
      money_per_5_reps := 10, is_money_per_5_reps_locked := false,
      earnings := 10, completion_percentage := 0 }
    (by rfl) (by rfl)

/-- Witness for C7 at a concrete input: one subtopic with 27 of 18 reps
completes at 150%. -/
theorem topicCompletion_formula_witness :
    totalRepsGoal [{ id := 1, topic_id := 1, title := "a", notes := "", urls := [],
                     reps_completed := 27, reps_goal := 18, goal_amount := 1000 }] ≠ 0 ∧
    100 < calculateTopicCompletionPercentage
      [{ id := 1, topic_id := 1, title := "a", notes := "", urls := [],
         reps_completed := 27, reps_goal := 18, goal_amount := 1000 }] :=
  ⟨by decide,
   (topicCompletion_formula
      [{ id := 1, topic_id := 1, title := "a", notes := "", urls := [],
         reps_completed := 27, reps_goal := 18, goal_amount := 1000 }]).2.2.2
     (by decide) (by decide)⟩

/-- C3: starting a session on an activity that already has an active
session fails with the conflict error and leaves the store unchanged (no
row inserted), whatever session type was requested; without an active
session a new row is inserted, active, with the requested or default
session type. -/
theorem startSession_spec (st : AppState) (aid : Nat) (ty : Option SessionType)
    (now : ℤ) (nid : Nat) :
    (∀ sess, st.sessions.find? (fun s => s.activity_id == aid && s.is_active) = some sess →
      startSession st aid ty now nid = (st, .error "Activity already has an active session")) ∧
    (st.sessions.find? (fun s => s.activity_id == aid && s.is_active) = none →
      startSession st aid ty now nid =
        ({ st with sessions := st.sessions ++
             [{ id := nid, activity_id := aid, start_time := now, end_time := none,
                duration_minutes := 0, is_active := true, session_type := ty.getD .manual }] },
         .ok { id := nid, activity_id := aid, start_time := now, end_time := none,
               duration_minutes := 0, is_active := true,
               session_type := ty.getD .manual })) := by
  constructor
  · intro sess h
    simp only [startSession, h]
  · intro h
    simp only [startSession, h]

/-- Witness for C3: starting a timer session on activity 1, which already
has an active manual session, is rejected and inserts nothing. -/
theorem startSession_spec_witness :
    startSession
      { activities := [], sessions :=
          [{ id := 1, activity_id := 1, start_time := 0, end_time := none,
             duration_minutes := 0, is_active := true, session_type := .manual }],
        challenges := [], progress := [] } 1 (some .timer) 99 2 =
      ({ activities := [], sessions :=
           [{ id := 1, activity_id := 1, start_time := 0, end_time := none,
              duration_minutes := 0, is_active := true, session_type := .manual }],
         challenges := [], progress := [] },
       .error "Activity already has an active session") :=
  (startSession_spec
    { activities := [], sessions :=
        [{ id := 1, activity_id := 1, start_time := 0, end_time := none,
           duration_minutes := 0, is_active := true, session_type := .manual }],
      challenges := [], progress := [] } 1 (some .timer) 99 2).1
    { id := 1, activity_id := 1, start_time := 0, end_time := none,
      duration_minutes := 0, is_active := true, session_type := .manual }
    (by rfl)

/-- C4: ending the active session with a given id stamps
`duration_minutes = max 0 ⌊(t − start) / 60000⌋`, `end_time = t` and
`is_active = false`, both in the returned session and in the persisted
row; when no session with that id is active it fails. -/
theorem endSession_spec (st : AppState) (sid : Nat) (c : Clock) :
    (∀ sess, st.sessions.find? (fun s => s.id == sid && s.is_active) = some sess →
      (endSession st sid c).2 =
        .ok { sess with
              end_time := some c.t
              duration_minutes := max 0 ((c.t - sess.start_time).fdiv 60000)
              is_active := false } ∧
      (endSession st sid c).1.sessions =
        st.sessions.map (fun s =>
          if s.id == sid then
            { s with
              end_time := some c.t
              duration_minutes := max 0 ((c.t - sess.start_time).fdiv 60000)
              is_active := false }
          else s)) ∧
    (st.sessions.find? (fun s => s.id == sid && s.is_active) = none →
      endSession st sid c = (st, .error "Failed to fetch active session")) := by
  constructor
  · intro sess h
    refine ⟨by simp only [endSession, h], ?_⟩
    simp only [endSession, h]
    split
    · split
      · split
        · rw [updateDailyFocusHours_sessions]
          rfl
        · rfl
      · rfl
    · rfl
  · intro h
    simp only [endSession, h]

/-- Witness for C4: a session started at 0 and ended at 125000 ms (a 125
second gap) records exactly 2 duration minutes. -/
theorem endSession_spec_witness :
    (endSession
      { activities := [], sessions :=
          [{ id := 1, activity_id := 1, start_time := 0, end_time := none,
             duration_minutes := 0, is_active := true, session_type := .manual }],
        challenges := [], progress := [] } 1
      { t := 125000, dayStart := 0, today := 0 }).2 =
      .ok { id := 1, activity_id := 1, start_time := 0, end_time := some 125000,
            duration_minutes := max 0 (((125000 : ℤ) - 0).fdiv 60000),
            is_active := false, session_type := .manual } ∧
    max 0 (((125000 : ℤ) - 0).fdiv 60000) = 2 :=
  ⟨((endSession_spec
      { activities := [], sessions :=
          [{ id := 1, activity_id := 1, start_time := 0, end_time := none,
             duration_minutes := 0, is_active := true, session_type := .manual }],
        challenges := [], progress := [] } 1
      { t := 125000, dayStart := 0, today := 0 }).1
      { id := 1, activity_id := 1, start_time := 0, end_time := none,
        duration_minutes := 0, is_active := true, session_type := .manual }
      (by rfl)).1,
   by decide⟩

/-- C5: ending a session of positive duration on an activity named
"Focus Hour" or "FOCUSSED TIME" increments that activity's reps by exactly
the duration and adds the duration to today's challenge focus-minutes
accumulator (creating the row when absent); when no challenge is active
the accumulator part silently does nothing while the session end still
succeeds and the reps increment is still applied. -/
theorem endSession_focusHour_spec (st : AppState) (sid : Nat) (c : Clock)
    (sess : ActivitySession) (a : Activity)
    (hsess : st.sessions.find? (fun s => s.id == sid && s.is_active) = some sess)
    (hact : st.activities.find? (fun x => x.id == sess.activity_id) = some a)
    (hname : a.name = "Focus Hour" ∨ a.name = "FOCUSSED TIME")
    (hdur : 0 < max 0 ((c.t - sess.start_time).fdiv 60000)) :
    ((endSession st sid c).2 =
      .ok { sess with
            end_time := some c.t
            duration_minutes := max 0 ((c.t - sess.start_time).fdiv 60000)
            is_active := false }) ∧
    ((endSession st sid c).1.activities.find? (fun x => x.id == sess.activity_id) =
      some { a with reps := a.reps + (max 0 ((c.t - sess.start_time).fdiv 60000)).toNat }) ∧
    (∀ ch, st.challenges.find? (fun x => x.is_active) = some ch →
      (∀ row, st.progress.find?
          (fun p => p.challenge_id == ch.id && p.progress_date == c.today) = some row →
        (endSession st sid c).1.progress.find?
            (fun p => p.challenge_id == ch.id && p.progress_date == c.today) =
          some { row with daily_focus_minutes :=
                   row.daily_focus_minutes + max 0 ((c.t - sess.start_time).fdiv 60000) }) ∧
      (st.progress.find?
          (fun p => p.challenge_id == ch.id && p.progress_date == c.today) = none →
        (endSession st sid c).1.progress =
          st.progress ++
            [{ challenge_id := ch.id, progress_date := c.today,
               daily_focus_minutes := max 0 ((c.t - sess.start_time).fdiv 60000),
               countdown_seconds_remaining := calculateRemainingSeconds ch c,
               is_active_period := none, last_countdown_update := none }])) ∧
    (st.challenges.find? (fun x => x.is_active) = none →
      (endSession st sid c).1.progress = st.progress) := by
  have hnameB : (a.name == "Focus Hour" || a.name == "FOCUSSED TIME") = true := by
    rcases hname with h | h <;> simp [h]
  have haid : (a.id == sess.activity_id) = true := by
    simpa using List.find?_some hact
  have hrepsEq : (max 0 ((a.reps : ℤ) + max 0 ((c.t - sess.start_time).fdiv 60000))).toNat =
      a.reps + (max 0 ((c.t - sess.start_time).fdiv 60000)).toNat := by
    omega
  have hpresA : ∀ y : Activity,
      ((fun x : Activity => x.id == sess.activity_id)
        (if y.id == sess.activity_id then
          { y with reps := (max 0 ((y.reps : ℤ) +
              max 0 ((c.t - sess.start_time).fdiv 60000))).toNat }
        else y)) =
      (y.id == sess.activity_id) := by
    intro y
    by_cases h : y.id = sess.activity_id <;> simp [h]
  refine ⟨?_, ?_, ?_, ?_⟩
  · simp only [endSession, hsess]
  · simp only [endSession, hsess]
    rw [if_pos hdur]
    simp only [hact]
    rw [if_pos hnameB]
    rw [updateDailyFocusHours_activities]
    simp only [incrementRepsOn]
    rw [find?_map_update _ _ _ a hact hpresA]
    rw [if_pos haid, hrepsEq]
  · intro ch hch
    constructor
    · intro row hrow
      have hpresP : ∀ y : ChallengeProgress,
          ((fun p : ChallengeProgress =>
              p.challenge_id == ch.id && p.progress_date == c.today)
            (if y.challenge_id == ch.id && y.progress_date == c.today then
              { y with daily_focus_minutes :=
                  row.daily_focus_minutes + max 0 ((c.t - sess.start_time).fdiv 60000) }
            else y)) =
          (y.challenge_id == ch.id && y.progress_date == c.today) := by
        intro y
        by_cases h1 : y.challenge_id = ch.id <;> by_cases h2 : y.progress_date = c.today <;>
          simp [h1, h2]
      simp only [endSession, hsess]
      rw [if_pos hdur]
      simp only [hact]
      rw [if_pos hnameB]
      unfold updateDailyFocusHours
      simp only [incrementRepsOn]
      simp only [hch, hrow]
      rw [find?_map_update _ _ _ row hrow hpresP]
      rw [if_pos (by simpa using List.find?_some hrow)]
    · intro hrow
      simp only [endSession, hsess]
      rw [if_pos hdur]
      simp only [hact]
      rw [if_pos hnameB]
      unfold updateDailyFocusHours
      simp only [incrementRepsOn]
      simp only [hch, hrow]
  · intro hchnone
    simp only [endSession, hsess]
    rw [if_pos hdur]
    simp only [hact]
    rw [if_pos hnameB]
    unfold updateDailyFocusHours
    simp only [incrementRepsOn]
    simp only [hchnone]

/-- Witness for C5: a 10-minute timer session on "Focus Hour" (3 reps so
far) raises reps to 13 in the stored activity. -/
theorem endSession_focusHour_spec_witness :
    (endSession
      { activities := [{ id := 2, name := "Focus Hour", reps := 3, goal_daily := 0,
                         goal_weekly := 0, goal_monthly := 0, goal_yearly := 0 }],
        sessions := [{ id := 9, activity_id := 2, start_time := 0, end_time := none,
                       duration_minutes := 0, is_active := true, session_type := .timer }],
        challenges := [{ id := 5, start_date := 0, end_date := 5529600000,
                         ultimate_focus_goal_hours := 500, is_active := true }],
        progress := [{ challenge_id := 5, progress_date := 0, daily_focus_minutes := 4,
                       countdown_seconds_remaining := 100, is_active_period := none,
                       last_countdown_update := none }] } 9
      { t := 600000, dayStart := 0, today := 0 }).1.activities.find?
        (fun x => x.id == (2 : Nat)) =
      some { id := 2, name := "Focus Hour",
             reps := 3 + (max 0 (((600000 : ℤ) - 0).fdiv 60000)).toNat, goal_daily := 0,
             goal_weekly := 0, goal_monthly := 0, goal_yearly := 0 } :=
  (endSession_focusHour_spec
    { activities := [{ id := 2, name := "Focus Hour", reps := 3, goal_daily := 0,
                       goal_weekly := 0, goal_monthly := 0, goal_yearly := 0 }],
      sessions := [{ id := 9, activity_id := 2, start_time := 0, end_time := none,
                     duration_minutes := 0, is_active := true, session_type := .timer }],
      challenges := [{ id := 5, start_date := 0, end_date := 5529600000,
                       ultimate_focus_goal_hours := 500, is_active := true }],
      progress := [{ challenge_id := 5, progress_date := 0, daily_focus_minutes := 4,
                     countdown_seconds_remaining := 100, is_active_period := none,
                     last_countdown_update := none }] } 9
    { t := 600000, dayStart := 0, today := 0 }
    { id := 9, activity_id := 2, start_time := 0, end_time := none,
      duration_minutes := 0, is_active := true, session_type := .timer }
    { id := 2, name := "Focus Hour", reps := 3, goal_daily := 0,
      goal_weekly := 0, goal_monthly := 0, goal_yearly := 0 }
    (by rfl) (by rfl) (Or.inl rfl) (by decide)).2.1


lemma filter_map_deactivate (l : List Challenge) :
    (l.map (fun ch => if ch.is_active then { ch with is_active := false } else ch)).filter
      (fun x => x.is_active) = [] := by
  induction l with
  | nil => rfl
  | cons x xs ih =>
    by_cases h : x.is_active <;> simp [List.filter_cons, h, ih]

lemma syncCountdown_challenges (st : AppState) (c : Clock) :
    (syncCountdown st c).1.challenges = st.challenges := by
  unfold syncCountdown
  split
  · rfl
  · dsimp only
    split <;> rfl

/-- C6: creating a challenge deactivates every previously active challenge
and inserts the new one (active, spanning 64 days, seeded with the
64 × 16 × 3600-second countdown row), so afterwards exactly that challenge
is active; and the at-most-one-active invariant is preserved by the
challenge tracker operations (create, countdown sync, focus-minutes
accumulation). -/
theorem createChallenge_single_active (st : AppState) (q : ℚ) (c : Clock) (nid : Nat)
    (d : ℤ) :
    (0 < q →
      ∃ st2 ch, createChallenge st q c nid = (st2, .ok ch) ∧
        st2.challenges.filter (fun x => x.is_active) = [ch] ∧
        ch.is_active = true ∧ ch.start_date = c.t ∧ ch.end_date = c.t + 64 * 86400000 ∧
        st2.progress = st.progress ++
          [{ challenge_id := nid, progress_date := c.today, daily_focus_minutes := 0,
             countdown_seconds_remaining := 64 * 16 * 3600, is_active_period := none,
             last_countdown_update := none }]) ∧
    ((st.challenges.filter (fun x => x.is_active)).length ≤ 1 →
      ((createChallenge st q c nid).1.challenges.filter (fun x => x.is_active)).length ≤ 1) ∧
    ((syncCountdown st c).1.challenges = st.challenges) ∧
    ((updateDailyFocusHours st d c).challenges = st.challenges) := by
  refine ⟨?_, ?_, syncCountdown_challenges st c, updateDailyFocusHours_challenges st d c⟩
  · intro hq
    have hnot : ¬q ≤ 0 := not_le.mpr hq
    refine ⟨{ st with
              challenges :=
                st.challenges.map (fun ch =>
                  if ch.is_active then { ch with is_active := false } else ch) ++
                  [{ id := nid, start_date := c.t, end_date := c.t + 64 * 86400000,
                     ultimate_focus_goal_hours := q, is_active := true }]
              progress := st.progress ++
                [{ challenge_id := nid, progress_date := c.today, daily_focus_minutes := 0,
                   countdown_seconds_remaining := 64 * 16 * 3600, is_active_period := none,
                   last_countdown_update := none }] },
           { id := nid, start_date := c.t, end_date := c.t + 64 * 86400000,
             ultimate_focus_goal_hours := q, is_active := true },
           by simp only [createChallenge, if_neg hnot], ?_, rfl, rfl, rfl, rfl⟩
    rw [List.filter_append, filter_map_deactivate]
    rfl
  · intro h
    by_cases hq : q ≤ 0
    · simpa only [createChallenge, if_pos hq] using h
    · simp only [createChallenge, if_neg hq]
      rw [List.filter_append, filter_map_deactivate]
      simp

/-- Witness for C6: creating a 500-hour challenge over a store that already
holds an active challenge leaves exactly the new challenge active. -/
theorem createChallenge_single_active_witness :
    ∃ st2 ch,
      createChallenge
        { activities := [], sessions := [],
          challenges := [{ id := 5, start_date := 0, end_date := 5529600000,
                           ultimate_focus_goal_hours := 300, is_active := true }],
          progress := [] } 500 { t := 1000, dayStart := 0, today := 0 } 7 =
        (st2, .ok ch) ∧
      st2.challenges.filter (fun x => x.is_active) = [ch] ∧
      ch.is_active = true ∧ ch.start_date = 1000 ∧
      ch.end_date = 1000 + 64 * 86400000 ∧
      st2.progress = [] ++
        [{ challenge_id := 7, progress_date := 0, daily_focus_minutes := 0,
           countdown_seconds_remaining := 64 * 16 * 3600, is_active_period := none,
           last_countdown_update := none }] :=
  (createChallenge_single_active
    { activities := [], sessions := [],
      challenges := [{ id := 5, start_date := 0, end_date := 5529600000,
                       ultimate_focus_goal_hours := 300, is_active := true }],
      progress := [] } 500 { t := 1000, dayStart := 0, today := 0 } 7 0).1 (by norm_num)

/-- Modelled from the claim's wording (refinement comparison only): the
seconds remaining today strictly inside the fixed 07:00-21:00 window. -/
def specWindowSecondsRemaining (c : Clock) : ℤ :=
  (max 0 (c.dayStart + 21 * 3600000 - max c.t (c.dayStart + 7 * 3600000))).fdiv 1000

/-- Modelled from the claim's wording (refinement comparison only): window
remainder for today plus (full days remaining − 1) × 16 h × 3600 s. -/
def specTotalSecondsRemaining (challenge : Challenge) (c : Clock) : ℤ :=
  (max 0 (intCeilDiv (challenge.end_date - c.t) 86400000) - 1) * 16 * 3600 +
    specWindowSecondsRemaining c

/-- Counterexample for C9: at 05:00 with ten days left, the code reports a
daily figure of 16 h (57600 s, total 576000 s), while the 07:00-21:00
window holds only 14 h more today (50400 s, total 568800 s). -/
theorem syncCountdown_window_counterexample :
    (syncCountdown
      { activities := [], sessions := [],
        challenges := [{ id := 1, start_date := 0, end_date := 864000000,
                         ultimate_focus_goal_hours := 500, is_active := true }],
        progress := [] }
      { t := 18000000, dayStart := 0, today := 0 }).2 =
      .ok { server_time := 18000000, daily_seconds_remaining := 57600,
            total_seconds_remaining := 576000, is_active_hours := false,
            current_hour := 5, days_remaining := 10 } ∧
    specTotalSecondsRemaining
      { id := 1, start_date := 0, end_date := 864000000,
        ultimate_focus_goal_hours := 500, is_active := true }
      { t := 18000000, dayStart := 0, today := 0 } = 568800 ∧
    (576000 : ℤ) ≠ 568800 := by
  refine ⟨by rfl, by decide, by decide⟩

/-- C9 (amended): the sync computes the daily figure as seconds to 21:00
during 07:00-21:00, the full 16 h budget before 07:00 and 0 after; the
total is (ceil-days-remaining − 1) × 16 h + daily, clamped at 0; and
today's progress row is upserted with that total and the active flag. -/
theorem syncCountdown_amended (st : AppState) (c : Clock) (ch : Challenge)
    (hch : st.challenges.find? (fun x => x.is_active) = some ch) :
    ∃ st2 r, syncCountdown st c = (st2, .ok r) ∧
      r.daily_seconds_remaining =
        (if 7 ≤ c.hour ∧ c.hour < 21 then (c.dayStart + 21 * 3600000 - c.t).fdiv 1000
         else if c.hour < 7 then 16 * 3600 else 0) ∧
      r.is_active_hours = (if 7 ≤ c.hour ∧ c.hour < 21 then true else false) ∧
      r.total_seconds_remaining =
        max 0 ((max 0 (intCeilDiv (ch.end_date - c.t) 86400000) - 1) * 16 * 3600 +
          r.daily_seconds_remaining) ∧
      (st2.progress.find?
          (fun p => p.challenge_id == ch.id && p.progress_date == c.today)).map
          (fun p => (p.countdown_seconds_remaining, p.is_active_period)) =
        some (r.total_seconds_remaining, some r.is_active_hours) := by
  simp only [syncCountdown, hch]
  refine ⟨_, _, rfl, ?_, ?_, rfl, ?_⟩
  · by_cases h1 : 7 ≤ c.hour ∧ c.hour < 21 <;> by_cases h2 : c.hour < 7 <;> simp [h1, h2]
  · by_cases h1 : 7 ≤ c.hour ∧ c.hour < 21 <;> by_cases h2 : c.hour < 7 <;> simp [h1, h2]
  · cases hrow : st.progress.find?
        (fun p => p.challenge_id == ch.id && p.progress_date == c.today) with
    | some row =>
      simp only [hrow]
      rw [find?_map_update _ _ _ row hrow ?_]
      · rw [if_pos (by simpa using List.find?_some hrow)]
        rfl
      · intro y
        by_cases hy1 : y.challenge_id = ch.id <;> by_cases hy2 : y.progress_date = c.today <;>
          simp [hy1, hy2]
    | none =>
      simp only [hrow]
      rw [find?_append_none _ _ _ hrow (by simp)]
      rfl

/-- Witness for the amended C9 at 08:00 with ten ceil-days left: daily
46800 s, total 565200 s, row upserted accordingly. -/
theorem syncCountdown_amended_witness :
    ∃ st2 r,
      syncCountdown
        { activities := [], sessions := [],
          challenges := [{ id := 1, start_date := 0, end_date := 864000000,
                           ultimate_focus_goal_hours := 500, is_active := true }],
          progress := [] }
        { t := 28800000, dayStart := 0, today := 0 } = (st2, .ok r) ∧
      r.daily_seconds_remaining =
        (if 7 ≤ ({ t := 28800000, dayStart := 0, today := 0 } : Clock).hour ∧
            ({ t := 28800000, dayStart := 0, today := 0 } : Clock).hour < 21 then
          ((0 : ℤ) + 21 * 3600000 - 28800000).fdiv 1000
         else if ({ t := 28800000, dayStart := 0, today := 0 } : Clock).hour < 7 then
          16 * 3600
         else 0) ∧
      r.is_active_hours =
        (if 7 ≤ ({ t := 28800000, dayStart := 0, today := 0 } : Clock).hour ∧
            ({ t := 28800000, dayStart := 0, today := 0 } : Clock).hour < 21 then
          true
         else false) ∧
      r.total_seconds_remaining =
        max 0 ((max 0 (intCeilDiv ((864000000 : ℤ) - 28800000) 86400000) - 1) * 16 * 3600 +
          r.daily_seconds_remaining) ∧
      (st2.progress.find?
          (fun p => p.challenge_id == (1 : Nat) && p.progress_date == (0 : ℤ))).map
          (fun p => (p.countdown_seconds_remaining, p.is_active_period)) =
        some (r.total_seconds_remaining, some r.is_active_hours) :=
  syncCountdown_amended
    { activities := [], sessions := [],
      challenges := [{ id := 1, start_date := 0, end_date := 864000000,
                       ultimate_focus_goal_hours := 500, is_active := true }],
      progress := [] }
    { t := 28800000, dayStart := 0, today := 0 }
    { id := 1, start_date := 0, end_date := 864000000,
      ultimate_focus_goal_hours := 500, is_active := true }
    (by rfl)

/-- C10: the topic dashboard treats a stored global-goal of 0 exactly like
an absent setting (JS falsiness fallback): the whole response, including
the 5000 default, is identical, and the goal the progress is computed
against is never 0. -/
theorem dashboard_zero_goal (st : TopicStore) (k : String) :
    dashboardHandler st (some { key := k, value := 0 }) = dashboardHandler st none ∧
    (dashboardHandler st (some { key := k, value := 0 })).2.globalGoal = 5000 ∧
    (∀ g : Option GlobalSetting, (dashboardHandler st g).2.globalGoal ≠ 0) := by
  refine ⟨?_, ?_, ?_⟩
  · simp [dashboardHandler]
  · simp [dashboardHandler]
  · intro g
    cases g with
    | none =>
      simp [dashboardHandler]
    | some s =>
      by_cases h : s.value = 0 <;> simp [dashboardHandler, h]

/-- Witness for C10: on a one-topic store, the response for a stored goal
of 0 coincides with the response for no stored goal. -/
theorem dashboard_zero_goal_witness :
    dashboardHandler
      { topics := [{ id := 1, title := "t", category := "c", notes := "", urls := [],
                     money_per_5_reps := 10, is_money_per_5_reps_locked := false,
                     earnings := 0, completion_percentage := 0 }],
        subtopics := [] } (some { key := "global_goal", value := 0 }) =
      dashboardHandler
        { topics := [{ id := 1, title := "t", category := "c", notes := "", urls := [],
                       money_per_5_reps := 10, is_money_per_5_reps_locked := false,
                       earnings := 0, completion_percentage := 0 }],
          subtopics := [] } none :=
  (dashboard_zero_goal
    { topics := [{ id := 1, title := "t", category := "c", notes := "", urls := [],
                   money_per_5_reps := 10, is_money_per_5_reps_locked := false,
                   earnings := 0, completion_percentage := 0 }],
      subtopics := [] } "global_goal").1

instance {e b : Type _} [DecidableEq e] [DecidableEq b] : DecidableEq (Except e b) :=
  fun x y =>
    match x, y with
    | .error a, .error c => decidable_of_iff (a = c) (by simp)
    | .ok a, .ok c => decidable_of_iff (a = c) (by simp)
    | .error _, .ok _ => isFalse (by simp)
    | .ok _, .error _ => isFalse (by simp)

/-- C8: both subtopic validators reject any payload whose goal amount is
not a positive number or not an exact multiple of 1000 (JS `%`), returning
an error and no object; concretely 1500 is rejected and 2000 accepted. -/
theorem subtopic_goalAmount_validation :
    (∀ data : SubtopicPayload, goalAmountOk data.goalAmount = false →
      ∃ e, validateCreateSubtopic data = .error e) ∧
    (∀ data : SubtopicPayload, data.goalAmount ≠ .undef →
      goalAmountOk data.goalAmount = false →
      ∃ e, validateUpdateSubtopic data = .error e) ∧
    validateCreateSubtopic
      { title := .str "T", notes := .undef, urls := .undef, goalAmount := .num 1500 } =
      .error "goalAmount must be a multiple of 1000" ∧
    validateCreateSubtopic
      { title := .str "T", notes := .undef, urls := .undef, goalAmount := .num 2000 } =
      .ok { title := "T", goalAmount := 2000, notes := .str "", urls := [] } ∧
    validateUpdateSubtopic
      { title := .undef, notes := .undef, urls := .undef, goalAmount := .num 1500 } =
      .error "goalAmount must be a multiple of 1000" ∧
    validateUpdateSubtopic
      { title := .undef, notes := .undef, urls := .undef, goalAmount := .num 2000 } =
      .ok { title := none, notes := none, urls := none, goalAmount := some 2000 } := by
  refine ⟨?_, ?_, by decide, by decide, by decide, by decide⟩
  · intro data hbad
    obtain ⟨title, notes, urls, goal⟩ := data
    cases title with
    | str t =>
      cases goal with
      | num g =>
        simp only [goalAmountOk] at hbad
        simp only [validateCreateSubtopic]
        by_cases hlen : (jsTrim t).length = 0
        · rw [if_pos hlen]
          exact ⟨_, rfl⟩
        · rw [if_neg hlen]
          by_cases hg : g ≤ 0
          · rw [if_pos hg]
            exact ⟨_, rfl⟩
          · rw [if_neg hg]
            have h0 : 0 < g := not_le.mp hg
            have hrem : jsRem g 1000 ≠ 0 := by
              intro hr
              simp [h0, hr] at hbad
            rw [if_pos hrem]
            exact ⟨_, rfl⟩
      | undef =>
        simp only [validateCreateSubtopic]
        by_cases hlen : (jsTrim t).length = 0
        · rw [if_pos hlen]; exact ⟨_, rfl⟩
        · rw [if_neg hlen]; exact ⟨_, rfl⟩
      | null =>
        simp only [validateCreateSubtopic]
        by_cases hlen : (jsTrim t).length = 0
        · rw [if_pos hlen]; exact ⟨_, rfl⟩
        · rw [if_neg hlen]; exact ⟨_, rfl⟩
      | bool b =>
        simp only [validateCreateSubtopic]
        by_cases hlen : (jsTrim t).length = 0
        · rw [if_pos hlen]; exact ⟨_, rfl⟩
        · rw [if_neg hlen]; exact ⟨_, rfl⟩
      | str s =>
        simp only [validateCreateSubtopic]
        by_cases hlen : (jsTrim t).length = 0
        · rw [if_pos hlen]; exact ⟨_, rfl⟩
        · rw [if_neg hlen]; exact ⟨_, rfl⟩
      | arr l =>
        simp only [validateCreateSubtopic]
        by_cases hlen : (jsTrim t).length = 0
        · rw [if_pos hlen]; exact ⟨_, rfl⟩
        · rw [if_neg hlen]; exact ⟨_, rfl⟩
    | undef => exact ⟨_, rfl⟩
    | null => exact ⟨_, rfl⟩
    | bool b => exact ⟨_, rfl⟩
    | num q => exact ⟨_, rfl⟩
    | arr l => exact ⟨_, rfl⟩
  · intro data hundef hbad
    obtain ⟨title, notes, urls, goal⟩ := data
    cases title with
    | str t =>
      cases goal with
      | num g =>
        simp only [goalAmountOk] at hbad
        simp only [validateUpdateSubtopic]
        by_cases hlen : (jsTrim t).length = 0
        · rw [if_pos hlen]
          exact ⟨_, rfl⟩
        · rw [if_neg hlen]
          simp only [updateSubtopicTail]
          by_cases hg : g ≤ 0
          · rw [if_pos hg]
            exact ⟨_, rfl⟩
          · rw [if_neg hg]
            have h0 : 0 < g := not_le.mp hg
            have hrem : jsRem g 1000 ≠ 0 := by
              intro hr
              simp [h0, hr] at hbad
            rw [if_pos hrem]
            exact ⟨_, rfl⟩
      | undef => exact absurd rfl hundef
      | null =>
        simp only [validateUpdateSubtopic]
        by_cases hlen : (jsTrim t).length = 0
        · rw [if_pos hlen]; exact ⟨_, rfl⟩
        · rw [if_neg hlen]; exact ⟨_, rfl⟩
      | bool b =>
        simp only [validateUpdateSubtopic]
        by_cases hlen : (jsTrim t).length = 0
        · rw [if_pos hlen]; exact ⟨_, rfl⟩
        · rw [if_neg hlen]; exact ⟨_, rfl⟩
      | str s =>
        simp only [validateUpdateSubtopic]
        by_cases hlen : (jsTrim t).length = 0
        · rw [if_pos hlen]; exact ⟨_, rfl⟩
        · rw [if_neg hlen]; exact ⟨_, rfl⟩
      | arr l =>
        simp only [validateUpdateSubtopic]
        by_cases hlen : (jsTrim t).length = 0
        · rw [if_pos hlen]; exact ⟨_, rfl⟩
        · rw [if_neg hlen]; exact ⟨_, rfl⟩
    | undef =>
      cases goal with
      | num g =>
        simp only [goalAmountOk] at hbad
        simp only [validateUpdateSubtopic, updateSubtopicTail]
        by_cases hg : g ≤ 0
        · rw [if_pos hg]
          exact ⟨_, rfl⟩
        · rw [if_neg hg]
          have h0 : 0 < g := not_le.mp hg
          have hrem : jsRem g 1000 ≠ 0 := by
            intro hr
            simp [h0, hr] at hbad
          rw [if_pos hrem]
          exact ⟨_, rfl⟩
      | undef => exact absurd rfl hundef
      | null => exact ⟨_, rfl⟩
      | bool b => exact ⟨_, rfl⟩
      | str s => exact ⟨_, rfl⟩
      | arr l => exact ⟨_, rfl⟩
    | null => exact ⟨_, rfl⟩
    | bool b => exact ⟨_, rfl⟩
    | num q => exact ⟨_, rfl⟩
    | arr l => exact ⟨_, rfl⟩

/-- Witness for C8: a payload whose goal amount is the string "1500" is
rejected by create validation. -/
theorem subtopic_goalAmount_validation_witness :
    ∃ e, validateCreateSubtopic
      { title := .str "T", notes := .undef, urls := .undef,
        goalAmount := .str "1500" } = .error e :=
  subtopic_goalAmount_validation.1
    { title := .str "T", notes := .undef, urls := .undef, goalAmount := .str "1500" }
    (by rfl)

end IsObsessed
